import Mathlib

/-!
Shallow embedding of `EdaTodoFrontendPipelineStack`
(src/lib/eda-todo-frontend-pipeline-stack.ts) and of the repository's
"Empty Stack" template test.  The CDK constructs the stack constructor
instantiates (S3 bucket, CloudFront distribution, CodePipeline with its
stages and actions, CodeBuild projects, IAM policy statement, CfnOutputs)
are modelled as plain configuration records, and the constructor body is
translated into a pure function `mkStack : String → StackModel` that
mirrors it line by line.
-/

namespace EdaTodo

/-- Model of JavaScript's per-character lowercasing as applied by
`String.prototype.toLocaleLowerCase` to characters in the ASCII range:
an upper-case ASCII letter is shifted into the lower-case range, every
other character is returned unchanged. -/
def lowerChar (c : Char) : Char :=
  if 'A' ≤ c ∧ c ≤ 'Z' then Char.ofNat (c.toNat + 32) else c

/-- Model of `String.prototype.toLocaleLowerCase` (over the ASCII range):
lowercase every character of the string. -/
def jsToLocaleLowerCase (s : String) : String :=
  ⟨s.data.map lowerChar⟩

/-- Deploy-time token values; the stack only ever stores references to a
distribution's id, a distribution's domain name, a bucket's website URL,
and a Secrets Manager secret. -/
inductive Token where
  | secretsManager (secretName : String)
  | distributionIdOf (distConstructId : String)
  | distributionDomainNameOf (distConstructId : String)
  | bucketWebsiteUrlOf (bucketConstructId : String)
  deriving Repr, DecidableEq

/-- `cdk.RemovalPolicy` (only `DESTROY` is used by this stack). -/
inductive RemovalPolicy where
  | destroy
  | retain
  deriving Repr, DecidableEq

/-- `S3.Bucket` construct properties, as configured by the stack. -/
structure Bucket where
  constructId : String
  bucketName : String
  removalPolicy : RemovalPolicy
  websiteIndexDocument : String
  websiteErrorDocument : String
  publicReadAccess : Bool
  deriving Repr, DecidableEq

/-- `origins.S3Origin(bucket)`. -/
structure S3Origin where
  bucket : Bucket
  deriving Repr, DecidableEq

/-- `cloudfront.ViewerProtocolPolicy` (only `REDIRECT_TO_HTTPS` is used). -/
inductive ViewerProtocolPolicy where
  | redirectToHttps
  | allowAll
  deriving Repr, DecidableEq

/-- `cloudfront.OriginRequestPolicy` (only `ALL_VIEWER` is used). -/
inductive OriginRequestPolicy where
  | allViewer
  deriving Repr, DecidableEq

/-- `cloudfront.Distribution` construct with its default behavior, as
configured by the stack. -/
structure Distribution where
  constructId : String
  origin : S3Origin
  viewerProtocolPolicy : ViewerProtocolPolicy
  originRequestPolicy : OriginRequestPolicy
  deriving Repr, DecidableEq

/-- `dist.distributionId`: the deploy-time token referring to the
distribution's identifier. -/
def Distribution.distributionId (d : Distribution) : Token :=
  Token.distributionIdOf d.constructId

/-- `dist.domainName`: the deploy-time token referring to the
distribution's domain name. -/
def Distribution.domainName (d : Distribution) : Token :=
  Token.distributionDomainNameOf d.constructId

/-- `bucket.bucketWebsiteUrl`. -/
def Bucket.bucketWebsiteUrl (b : Bucket) : Token :=
  Token.bucketWebsiteUrlOf b.constructId

/-- A `CodePipeline.Artifact()`; the two artifacts created by the stack
are distinguished by allocation order. -/
abbrev Artifact := Nat

/-- The `install` phase of a CodeBuild build spec:
`runtime-versions` and `commands`. -/
structure InstallPhase where
  runtimeVersions : List (String × String)
  commands : List String
  deriving Repr, DecidableEq

/-- The `build` phase of a CodeBuild build spec. -/
structure BuildPhase where
  commands : List String
  deriving Repr, DecidableEq

/-- The `phases` object of a CodeBuild build spec; the install phase is
optional (the invalidation project declares only a build phase). -/
structure Phases where
  install : Option InstallPhase
  build : BuildPhase
  deriving Repr, DecidableEq

/-- The `artifacts` object of a CodeBuild build spec: exactly the two
fields `base-directory` and `files`. -/
structure ArtifactsSpec where
  baseDirectory : String
  files : List String
  deriving Repr, DecidableEq

/-- A build spec object as passed to `CodeBuild.BuildSpec.fromObject`. -/
structure BuildSpecObj where
  version : String
  phases : Phases
  artifacts : Option ArtifactsSpec
  deriving Repr, DecidableEq

/-- The sequence of shell commands a build spec runs, in execution order:
the CodeBuild service runs the install phase to completion before the
build phase starts. -/
def BuildSpecObj.commandSequence (b : BuildSpecObj) : List String :=
  (match b.phases.install with
   | some i => i.commands
   | none => []) ++ b.phases.build.commands

/-- `CodeBuild.LinuxBuildImage` (only `STANDARD_5_0` is used). -/
inductive BuildImage where
  | standard5_0
  deriving Repr, DecidableEq

/-- `iam.Effect`. -/
inductive Effect where
  | allow
  | deny
  deriving Repr, DecidableEq

/-- An `iam.PolicyStatement`: effect, resource patterns, action patterns. -/
structure PolicyStatement where
  effect : Effect
  resources : List String
  actions : List String
  deriving Repr, DecidableEq

/-- A `CodeBuild.PipelineProject`: name, build spec, optional build
image, environment variables, and the policy statements added to its
execution role via `addToRolePolicy`. -/
structure PipelineProject where
  constructId : String
  projectName : String
  buildSpec : BuildSpecObj
  buildImage : Option BuildImage
  environmentVariables : List (String × Token)
  rolePolicies : List PolicyStatement
  deriving Repr, DecidableEq

/-- The closed set of pipeline action kinds used by the stack, with the
per-kind configuration from the source. -/
inductive Action where
  | gitHubSource (actionName owner repo : String) (oauthToken : Token)
      (output : Artifact) (branch : String)
  | codeBuild (actionName : String) (project : PipelineProject)
      (input : Artifact) (outputs : List Artifact) (runOrder : Option Nat)
  | s3Deploy (actionName : String) (input : Artifact) (bucket : Bucket)
      (runOrder : Option Nat)
  deriving Repr, DecidableEq

/-- The artifacts an action declares as inputs. -/
def Action.inputs : Action → List Artifact
  | .gitHubSource _ _ _ _ _ _ => []
  | .codeBuild _ _ input _ _ => [input]
  | .s3Deploy _ input _ _ => [input]

/-- The artifacts an action declares as outputs. -/
def Action.outputs : Action → List Artifact
  | .gitHubSource _ _ _ _ output _ => [output]
  | .codeBuild _ _ _ outs _ => outs
  | .s3Deploy _ _ _ _ => []

/-- A pipeline stage: `stageName` and its list of actions. -/
structure Stage where
  stageName : String
  actions : List Action
  deriving Repr, DecidableEq

/-- A `CodePipeline.Pipeline` with the stages added by successive
`addStage` calls, kept in call order. -/
structure Pipeline where
  constructId : String
  pipelineName : String
  crossAccountKeys : Bool
  restartExecutionOnUpdate : Bool
  stages : List Stage
  deriving Repr, DecidableEq

/-- A `cdk.CfnOutput`. -/
structure CfnOutput where
  constructId : String
  value : Token
  description : String
  deriving Repr, DecidableEq

/-- The configuration state assembled by the stack constructor. -/
structure StackModel where
  id : String
  bucketWebsite : Bucket
  dist : Distribution
  buildWebsiteProject : PipelineProject
  invalidateBuildProject : PipelineProject
  pipeline : Pipeline
  outputs : List CfnOutput
  deriving Repr, DecidableEq

/-- The build spec of the website build project
(`fromObject` argument, lines 75-99 of the source). -/
def websiteBuildSpec : BuildSpecObj :=
  { version := "0.2"
    phases :=
      { install := some
          { runtimeVersions := [("nodejs", "latest")]
            commands :=
              [ "npm update -g"
              , "npm install -g gatsby-cli"
              , "npm install -g yarn"
              , "yarn" ] }
        build := { commands := ["gatsby build"] } }
    artifacts := some { baseDirectory := "./public", files := ["**/*"] } }

/-- The single shell command of the invalidation project's build phase
(line 138 of the source; the braces of the shell variable expansion are
written with escapes). -/
def invalidationCommand : String :=
  "aws cloudfront create-invalidation --distribution-id $\x7bCLOUDFRONT_ID\x7d --paths \"/*\""

/-- The build spec of the cache-invalidation build project
(`fromObject` argument, lines 133-143 of the source). -/
def invalidationBuildSpec : BuildSpecObj :=
  { version := "0.2"
    phases :=
      { install := none
        build := { commands := [invalidationCommand] } }
    artifacts := none }

/-- The policy statement added to the invalidation project's role
(lines 153-163 of the source). -/
def invalidationPolicy : PolicyStatement :=
  { effect := Effect.allow
    resources := ["*"]
    actions :=
      [ "cloudfront:CreateInvalidation"
      , "cloudfront:GetDistribution*"
      , "cloudfront:GetInvalidation"
      , "cloudfront:ListInvalidations"
      , "cloudfront:ListDistributions" ] }

/-- `bucketWebsite` (lines 16-22 of the source): the website bucket
created for a given stack id. -/
def bucketWebsiteOf (id : String) : Bucket :=
  { constructId := id ++ "_website_bucket"
    bucketName := jsToLocaleLowerCase (id ++ "-website-bucket")
    removalPolicy := RemovalPolicy.destroy
    websiteIndexDocument := "index.html"
    websiteErrorDocument := "error.html"
    publicReadAccess := true }

/-- `dist` (lines 24-35 of the source): the CloudFront distribution with
the website bucket as origin of its default behavior. -/
def distOf (id : String) : Distribution :=
  { constructId := id ++ "_cloudfront_dist_for_website_bucket"
    origin := { bucket := bucketWebsiteOf id }
    viewerProtocolPolicy := ViewerProtocolPolicy.redirectToHttps
    originRequestPolicy := OriginRequestPolicy.allViewer }

/-- `outputSources = new CodePipeline.Artifact()` (line 38): the first
artifact allocated by the constructor. -/
def outputSources : Artifact := 0

/-- `outputWebsite = new CodePipeline.Artifact()` (line 39): the second
artifact allocated by the constructor. -/
def outputWebsite : Artifact := 1

/-- The `PipelineProject` of the Build stage (lines 70-104). -/
def buildWebsiteProjectOf (id : String) : PipelineProject :=
  { constructId := id ++ "_codebuild_project_build_website"
    projectName := id ++ "_codebuild_project_build_website"
    buildSpec := websiteBuildSpec
    buildImage := some BuildImage.standard5_0
    environmentVariables := []
    rolePolicies := [] }

/-- `invalidateBuildProject` (lines 128-148) with the policy statement
added by `addToRolePolicy` (lines 152-164). -/
def invalidateBuildProjectOf (id : String) : PipelineProject :=
  { constructId := id ++ "_codebuild_project_cloudfront_cache_invalidation"
    projectName := id ++ "_codebuild_project_cloudfront_cache_invalidation"
    buildSpec := invalidationBuildSpec
    buildImage := none
    environmentVariables := [("CLOUDFRONT_ID", (distOf id).distributionId)]
    rolePolicies := [invalidationPolicy] }

/-- `pipeline` (lines 42-46) after the four `addStage` calls (lines
49-61, 64-109, 112-123, 167-177), stages kept in call order. -/
def pipelineOf (id : String) : Pipeline :=
  { constructId := id ++ "_pipeline"
    pipelineName := id ++ "_pipeline"
    crossAccountKeys := false
    restartExecutionOnUpdate := true
    stages :=
      [ { stageName := "Source"
          actions :=
            [ Action.gitHubSource "Checkout" "nabeelfarid"
                "eda-todo-frontend"
                (Token.secretsManager "GITHUB_TOKEN_FOR_AWS")
                outputSources "master" ] }
      , { stageName := "Build"
          actions :=
            [ Action.codeBuild "Build-Gatsby-Website"
                (buildWebsiteProjectOf id)
                outputSources [outputWebsite] none ] }
      , { stageName := "Deploy"
          actions :=
            [ Action.s3Deploy "DeployWebsite" outputWebsite
                (bucketWebsiteOf id) (some 1) ] }
      , { stageName := "CacheInvalidation"
          actions :=
            [ Action.codeBuild "Invalidate-Cache"
                (invalidateBuildProjectOf id)
                outputWebsite [] (some 1) ] } ] }

/-- The constructor of `EdaTodoFrontendPipelineStack`, translated
statement by statement: the bucket, the distribution, the two artifacts,
the pipeline with its four `addStage` calls, the two CodeBuild projects
and the role policy, and the two `CfnOutput`s. -/
def mkStack (id : String) : StackModel :=
  { id := id
    bucketWebsite := bucketWebsiteOf id
    dist := distOf id
    buildWebsiteProject := buildWebsiteProjectOf id
    invalidateBuildProject := invalidateBuildProjectOf id
    pipeline := pipelineOf id
    outputs :=
      [ { constructId := "BucketWebsiteURL"
          value := (bucketWebsiteOf id).bucketWebsiteUrl
          description := "Bucket Website URL" }
      , { constructId := "CloudFrontURL"
          value := (distOf id).domainName
          description := "CloudFront URL" } ] }

/-- The top-level resources a synthesized template contains, one entry
per resource-creating construct the stack instantiates (`CfnOutput`s are
outputs, not resources). -/
inductive Resource where
  | s3Bucket (b : Bucket)
  | cloudFrontDistribution (d : Distribution)
  | codeBuildProject (p : PipelineProject)
  | codePipeline (p : Pipeline)
  deriving Repr, DecidableEq

/-- The resource set of the template synthesized from the stack: the
bucket, the distribution, the pipeline and the two build projects, in
creation order. -/
def StackModel.resources (s : StackModel) : List Resource :=
  [ Resource.s3Bucket s.bucketWebsite
  , Resource.cloudFrontDistribution s.dist
  , Resource.codePipeline s.pipeline
  , Resource.codeBuildProject s.buildWebsiteProject
  , Resource.codeBuildProject s.invalidateBuildProject ]

/-- The repository's "Empty Stack" test (src/unnamed/part_000):
instantiate the stack as `MyTestStack` and require the template to match
`\x7b Resources: \x7b\x7d \x7d` exactly, i.e. require the resource set
to be empty. -/
def emptyStackTestPasses : Bool :=
  (mkStack "MyTestStack").resources.isEmpty

/-- Artifact-wiring check over the stages in order: every input artifact
of every action of a stage must already have been produced by an action
of a strictly earlier stage (`produced` accumulates outputs only after
the stage's own inputs are checked, so self references within a stage
also fail the check). -/
def stagesWellWired : List Artifact → List Stage → Bool
  | _, [] => true
  | produced, st :: rest =>
    (st.actions.all fun a => a.inputs.all fun art => produced.contains art)
      && stagesWellWired
          (produced ++ (st.actions.map Action.outputs).flatten) rest

/-- A pipeline is well wired when the check passes starting from no
produced artifacts. -/
def Pipeline.wellWired (p : Pipeline) : Bool :=
  stagesWellWired [] p.stages

/-- The buckets targeted by `s3Deploy` actions anywhere in the pipeline,
in stage order. -/
def Pipeline.deployBuckets (p : Pipeline) : List Bucket :=
  (p.stages.map fun st =>
    st.actions.filterMap fun a =>
      match a with
      | Action.s3Deploy _ _ b _ => some b
      | _ => none).flatten

/-- IAM-style pattern matching on action names: `*` matches any sequence
of characters, `?` matches exactly one, any other character matches
itself.  The first argument is recursion fuel: every recursive call
strictly shrinks the combined length of pattern and input, so
`|pattern| + |input| + 1` fuel always suffices. -/
def iamMatchChars : Nat → List Char → List Char → Bool
  | 0, _, _ => false
  | _ + 1, [], [] => true
  | _ + 1, [], _ :: _ => false
  | f + 1, '*' :: ps, [] => iamMatchChars f ps []
  | f + 1, '*' :: ps, c :: cs =>
    iamMatchChars f ps (c :: cs) || iamMatchChars f ('*' :: ps) cs
  | f + 1, '?' :: ps, _ :: cs => iamMatchChars f ps cs
  | f + 1, p :: ps, c :: cs => (p == c) && iamMatchChars f ps cs
  | _ + 1, _ :: _, [] => false

/-- A pattern from a policy statement matches a concrete action name. -/
def iamPatternMatches (pattern action : String) : Bool :=
  iamMatchChars (pattern.length + action.length + 1) pattern.data action.data

/-- A policy statement allows a concrete action name when its effect is
Allow and some action pattern of the statement matches it. -/
def PolicyStatement.allows (st : PolicyStatement) (action : String) : Bool :=
  (st.effect == Effect.allow) && st.actions.any fun p => iamPatternMatches p action

/-- A project's execution role allows an action when some statement
added to it allows the action. -/
def PipelineProject.roleAllows (p : PipelineProject) (action : String) : Bool :=
  p.rolePolicies.any fun st => st.allows action

/-- The action set the specification claims the invalidation policy
grants, written as concrete API action names (this list follows the
spec's words, for comparison with the policy translated from the
source). -/
def claimedInvalidationActions : List String :=
  [ "cloudfront:CreateInvalidation"
  , "cloudfront:GetDistribution"
  , "cloudfront:GetInvalidation"
  , "cloudfront:ListInvalidations"
  , "cloudfront:ListDistributions" ]

/-- The bucket name the stack configures for a given construct id. -/
def websiteBucketName (id : String) : String :=
  jsToLocaleLowerCase (id ++ "-website-bucket")

/-! Theorems. -/

/-- Lowercasing distributes over string concatenation. -/
theorem jsToLocaleLowerCase_append (a b : String) :
    jsToLocaleLowerCase (a ++ b) = jsToLocaleLowerCase a ++ jsToLocaleLowerCase b := by
  cases a with
  | mk la =>
    cases b with
    | mk lb =>
      show String.mk ((la ++ lb).map lowerChar)
          = String.mk (la.map lowerChar) ++ String.mk (lb.map lowerChar)
      rw [List.map_append]
      rfl

/-- Claim C1, counterexample: instantiating the stack with the id
`MyTestStack` and no further configuration — exactly what the
repository's "Empty Stack" test does — yields a template whose resource
set is not empty, so the claim (and the test's `Resources: \x7b\x7d`
exact-match assertion) fails on this stack. -/
theorem edaC1_counterexample :
    (mkStack "MyTestStack").resources ≠ [] ∧ emptyStackTestPasses = false :=
  ⟨fun h => List.noConfusion h, rfl⟩

/-- Claim C1, amended: instantiating the stack with a stack id only
produces a template whose resource set is exactly the five resources the
constructor creates — the website bucket, the CloudFront distribution,
the pipeline, and the two CodeBuild projects — and in particular is not
empty, so the seed "Empty Stack" test fails against this stack. -/
theorem edaC1 (id : String) :
    (mkStack id).resources =
      [ Resource.s3Bucket (bucketWebsiteOf id)
      , Resource.cloudFrontDistribution (distOf id)
      , Resource.codePipeline (pipelineOf id)
      , Resource.codeBuildProject (buildWebsiteProjectOf id)
      , Resource.codeBuildProject (invalidateBuildProjectOf id) ]
      ∧ (mkStack id).resources ≠ [] :=
  ⟨rfl, fun h => List.noConfusion h⟩

/-- Claim C2: for every instantiation of the stack, the pipeline has
exactly four stages, in the fixed order Source, Build, Deploy,
CacheInvalidation, and no others. -/
theorem edaC2 (id : String) :
    (mkStack id).pipeline.stages.map Stage.stageName
      = ["Source", "Build", "Deploy", "CacheInvalidation"] :=
  rfl

/-- Claim C3: in the constructed pipeline, every action's declared input
artifact was produced as an output by an action of a strictly earlier
stage — no forward references, no self references, and no input artifact
that is never produced. -/
theorem edaC3 (id : String) : (mkStack id).pipeline.wellWired = true :=
  rfl

/-- Claim C4: the only bucket targeted by an S3 deploy action in the
pipeline is exactly the origin bucket of the CloudFront distribution
created by the stack. -/
theorem edaC4 (id : String) :
    (mkStack id).pipeline.deployBuckets = [(mkStack id).dist.origin.bucket] :=
  rfl

/-- Claim C5: the invalidation build project binds `CLOUDFRONT_ID` to
the distribution identifier of the distribution created alongside the
bucket (the distribution whose origin is the website bucket), and its
build phase consists of exactly one command, the create-invalidation
call for path pattern `/*` against `$CLOUDFRONT_ID`. -/
theorem edaC5 (id : String) :
    (mkStack id).invalidateBuildProject.environmentVariables
        = [("CLOUDFRONT_ID", (mkStack id).dist.distributionId)]
      ∧ (mkStack id).dist.origin.bucket = (mkStack id).bucketWebsite
      ∧ (mkStack id).invalidateBuildProject.buildSpec.phases.build.commands
        = ["aws cloudfront create-invalidation --distribution-id $\x7bCLOUDFRONT_ID\x7d --paths \"/*\""] :=
  ⟨rfl, rfl, rfl⟩

/-- Claim C6, counterexample: the policy attached to the invalidation
project's role does not allow exactly the claimed five-action set:
its `cloudfront:GetDistribution*` entry is a wildcard, so the role also
allows `cloudfront:GetDistributionConfig`, which is not in the claimed
set. -/
theorem edaC6_counterexample :
    ¬ (∀ a : String,
        (mkStack "MyTestStack").invalidateBuildProject.roleAllows a
          = claimedInvalidationActions.contains a) :=
  fun h => Bool.noConfusion (h "cloudfront:GetDistributionConfig")

/-- Claim C6, amended: the single policy statement of the invalidation
project's role allows, on all resources, exactly the five literal action
patterns `CreateInvalidation`, `GetDistribution*`, `GetInvalidation`,
`ListInvalidations`, `ListDistributions`; every action of the claimed
set is allowed, but the `GetDistribution*` wildcard additionally allows
further actions such as `GetDistributionConfig`, so the allowed set is a
strict superset of the claimed one. -/
theorem edaC6 (id : String) :
    (mkStack id).invalidateBuildProject.rolePolicies = [invalidationPolicy]
      ∧ invalidationPolicy.effect = Effect.allow
      ∧ invalidationPolicy.resources = ["*"]
      ∧ invalidationPolicy.actions =
          [ "cloudfront:CreateInvalidation"
          , "cloudfront:GetDistribution*"
          , "cloudfront:GetInvalidation"
          , "cloudfront:ListInvalidations"
          , "cloudfront:ListDistributions" ]
      ∧ claimedInvalidationActions.all
          (fun a => (mkStack id).invalidateBuildProject.roleAllows a) = true
      ∧ (mkStack id).invalidateBuildProject.roleAllows
          "cloudfront:GetDistributionConfig" = true :=
  ⟨rfl, rfl, rfl, rfl, rfl, rfl⟩

/-- Claim C7: the website build spec's artifacts section is present and
contains exactly the two fields base-directory `./public` and files
`["**/*"]`, unchanged from the configured values. -/
theorem edaC7 (id : String) :
    (mkStack id).buildWebsiteProject.buildSpec.artifacts
      = some { baseDirectory := "./public", files := ["**/*"] } :=
  rfl

/-- Claim C8: the website build project's full command sequence (install
phase, run to completion before the build phase) is exactly: update the
package manager, install the Gatsby CLI, install yarn, resolve
dependencies, then invoke the generator. -/
theorem edaC8 (id : String) :
    (mkStack id).buildWebsiteProject.buildSpec.commandSequence
        = [ "npm update -g"
          , "npm install -g gatsby-cli"
          , "npm install -g yarn"
          , "yarn"
          , "gatsby build" ]
      ∧ ((mkStack id).buildWebsiteProject.buildSpec.phases.install).map
          InstallPhase.commands
        = some
          [ "npm update -g"
          , "npm install -g gatsby-cli"
          , "npm install -g yarn"
          , "yarn" ]
      ∧ (mkStack id).buildWebsiteProject.buildSpec.phases.build.commands
        = ["gatsby build"] :=
  ⟨rfl, rfl, rfl⟩

/-- Claim C9: synthesis is deterministic — the stack model is a pure
function of the construct id, so two instantiations with the same id
yield identical stacks, resource sets and outputs. -/
theorem edaC9 (id1 id2 : String) (h : id1 = id2) :
    mkStack id1 = mkStack id2
      ∧ (mkStack id1).resources = (mkStack id2).resources
      ∧ (mkStack id1).outputs = (mkStack id2).outputs := by
  subst h
  exact ⟨rfl, rfl, rfl⟩

/-- Claim C9, witness: the determinism theorem applied at the concrete
id `MyTestStack`. -/
theorem edaC9_witness :
    mkStack "MyTestStack" = mkStack "MyTestStack"
      ∧ (mkStack "MyTestStack").resources = (mkStack "MyTestStack").resources
      ∧ (mkStack "MyTestStack").outputs = (mkStack "MyTestStack").outputs :=
  edaC9 "MyTestStack" "MyTestStack" rfl

/-- Claim C10: the website bucket's configured name is the lowercase
form of `<id>-website-bucket`; two ids that agree after lowercasing
(i.e. differ only in letter case) produce the same bucket name; and any
character that is not an upper-case letter — underscores in particular —
is passed through lowercasing unchanged. -/
theorem edaC10 (id1 id2 : String)
    (h : jsToLocaleLowerCase id1 = jsToLocaleLowerCase id2) :
    (mkStack id1).bucketWebsite.bucketName
        = jsToLocaleLowerCase (id1 ++ "-website-bucket")
      ∧ (mkStack id1).bucketWebsite.bucketName
        = (mkStack id2).bucketWebsite.bucketName
      ∧ ∀ c : Char, ¬('A' ≤ c ∧ c ≤ 'Z') → lowerChar c = c := by
  refine ⟨rfl, ?_, ?_⟩
  · show jsToLocaleLowerCase (id1 ++ "-website-bucket")
        = jsToLocaleLowerCase (id2 ++ "-website-bucket")
    rw [jsToLocaleLowerCase_append, jsToLocaleLowerCase_append, h]
  · intro c hc
    exact if_neg hc

/-- Claim C10, witness: the bucket-name theorem applied to the ids
`My_Stack` and `mY_sTACK`, which differ only in letter case. -/
theorem edaC10_witness :
    (mkStack "My_Stack").bucketWebsite.bucketName
        = jsToLocaleLowerCase ("My_Stack" ++ "-website-bucket")
      ∧ (mkStack "My_Stack").bucketWebsite.bucketName
        = (mkStack "mY_sTACK").bucketWebsite.bucketName
      ∧ ∀ c : Char, ¬('A' ≤ c ∧ c ≤ 'Z') → lowerChar c = c :=
  edaC10 "My_Stack" "mY_sTACK" rfl

end EdaTodo
